import Mathlib

/-
Verification of the parallel-coordinates charting module
(src/k-base/assets/highchart/code/js/es-modules/modules/parallel-coordinates.src.js)
against its natural-language specification.

JavaScript numbers are modelled as rationals, `undefined`/`null` option values
as `Option`, and host lifecycle hooks as pure state-transformation functions.
Hooks whose JavaScript body could throw a TypeError on a missing object are
embedded as `Option`-returning functions, `none` standing for the thrown error.
-/

namespace ParallelCoordinates

/-- JavaScript `Number.MAX_SAFE_INTEGER`. -/
def maxSafeInteger : ℤ := 2 ^ 53 - 1

/-- JavaScript `Number.MAX_VALUE`, the largest finite double. -/
def numberMaxValue : ℚ := (2 ^ 53 - 1) * 2 ^ 971

/-- Modelled from the spec: the host utility `H.pick` (parts/Globals.js, not
under src/) returns its first defined (neither `undefined` nor `null`)
argument; absent values are `none`. -/
def pick {α : Type} (a b : Option α) : Option α :=
  if a.isSome then a else b

/-- A JavaScript value that is either a single object or an array of objects,
as accepted by the host utility `H.splat`. -/
inductive SplatVal (α : Type) where
  | single (a : α)
  | array (l : List α)
deriving DecidableEq

/-- Modelled from the spec: the host utility `H.splat` (parts/Globals.js, not
under src/) wraps a non-array argument in a one-element array and returns an
array argument unchanged. -/
def splat {α : Type} : SplatVal α → List α
  | .single a => [a]
  | .array l => l

/- ===== Axis geometry model (afterSetOptions handler and setParallelPosition,
   source lines 243-324) ===== -/

/-- One of the four geometry option roles written by `setParallelPosition`. -/
inductive Role where
  | left
  | width
  | height
  | top
deriving DecidableEq

/-- A value stored under a geometry role: a number, a percentage string such
as `50%`, or JavaScript `null`. `none` in the surrounding `Option` stands for
`undefined` (the property was never set). -/
inductive GeomVal where
  | num (q : ℚ)
  | percentStr (q : ℚ)
  | jsNull
deriving DecidableEq

/-- The order in which the four geometry roles are applied: the source's
`axisPosition` array `['left', 'width', 'height', 'top']` (possibly
reversed). -/
structure RoleOrder where
  r0 : Role
  r1 : Role
  r2 : Role
  r3 : Role
deriving DecidableEq

/-- The source's base order `['left', 'width', 'height', 'top']`. -/
def axisPositionBase : RoleOrder := ⟨.left, .width, .height, .top⟩

/-- `Array.prototype.reverse` on a four-element role array. -/
def reverseRoles (ap : RoleOrder) : RoleOrder := ⟨ap.r3, ap.r2, ap.r1, ap.r0⟩

/-- The order chosen by the `afterSetOptions` handler (source lines 246-251):
the base order, reversed when the chart is inverted. -/
def axisPositionFor (inverted : Bool) : RoleOrder :=
  if inverted then reverseRoles axisPositionBase else axisPositionBase

/-- The state read and written by `Axis.setParallelPosition`: the chart flags,
the axis's ordinal position, `chart.parallelInfo.counter`, and the geometry
properties stored on the axis object itself and on its options object
(plus the options' `angle` used in polar mode). -/
structure ParallelAxisState where
  polar : Bool
  inverted : Bool
  parallelPosition : ℕ
  counter : ℕ
  axisGeom : Role → Option GeomVal
  optGeom : Role → Option GeomVal
  optAngle : Option ℚ

/-- The fraction `(this.parallelPosition + 0.5) /
(this.chart.parallelInfo.counter + 1)` (source lines 311-312). -/
def fractionOf (st : ParallelAxisState) : ℚ :=
  ((st.parallelPosition : ℚ) + 1 / 2) / ((st.counter : ℚ) + 1)

/-- `Axis.setParallelPosition` (source lines 310-324): in polar mode set the
options' `angle` to `360 * fraction`; otherwise set the first role's option to
the percentage string `100 * fraction + '%'`, the second role to `0` on both
the axis and the options, and the third and fourth roles to `null` on both. -/
def setParallelPosition (ap : RoleOrder) (st : ParallelAxisState) :
    ParallelAxisState :=
  let fraction := fractionOf st
  if st.polar then
    { st with optAngle := some (360 * fraction) }
  else
    { st with
      optGeom :=
        Function.update
          (Function.update
            (Function.update
              (Function.update st.optGeom ap.r0
                (some (GeomVal.percentStr (100 * fraction))))
              ap.r1 (some (GeomVal.num 0)))
            ap.r2 (some GeomVal.jsNull))
          ap.r3 (some GeomVal.jsNull),
      axisGeom :=
        Function.update
          (Function.update
            (Function.update st.axisGeom ap.r1 (some (GeomVal.num 0)))
            ap.r2 (some GeomVal.jsNull))
          ap.r3 (some GeomVal.jsNull) }

/-- The geometry part of the `afterSetOptions` event handler for a non-X axis
of a parallel-coordinates chart (source lines 243-272): choose the role order
from the inverted flag and call `setParallelPosition`. -/
def afterSetOptionsPosition (st : ParallelAxisState) : ParallelAxisState :=
  setParallelPosition (axisPositionFor st.inverted) st

/- ===== Extremes aggregation (getSeriesExtremes handler, source
   lines 282-297) ===== -/

/-- Modelled from the spec: the host utility `H.arrayMin` (parts/Globals.js,
not under src/) returns the smallest element of a numeric array, `undefined`
for an empty array. -/
def arrayMin (data : List ℚ) : Option ℚ :=
  match data with
  | [] => none
  | x :: xs => some (xs.foldl min x)

/-- Modelled from the spec: the host utility `H.arrayMax` (parts/Globals.js,
not under src/) returns the largest element of a numeric array, `undefined`
for an empty array. -/
def arrayMax (data : List ℚ) : Option ℚ :=
  match data with
  | [] => none
  | x :: xs => some (xs.foldl max x)

/-- A series as seen by the extremes handler: its `yData` array, whose
entries may be `null` (from null points) and whose out-of-range reads yield
`undefined`; both are `none` here, matching `H.defined`. -/
structure ExSeries where
  yData : List (Option ℚ)
deriving DecidableEq

/-- The `currentPoints` collection (source lines 285-291): the value
`series.yData[index]` of every bound series, kept only when defined. -/
def gatherCurrentPoints (series : List ExSeries) (index : ℕ) : List ℚ :=
  series.filterMap (fun s => s.yData.getD index none)

/-- The observable outcome of the `getSeriesExtremes` event handler: the
axis's `dataMin` and `dataMax` and whether `e.preventDefault()` was called. -/
structure ExtremesResult where
  dataMin : Option ℚ
  dataMax : Option ℚ
  defaultPrevented : Bool
deriving DecidableEq

/-- The `getSeriesExtremes` event handler (source lines 282-297): on a non-X
axis of a parallel-coordinates chart, gather the defined `yData[index]` values
of the bound series, set `dataMin`/`dataMax` to their array min/max, and
prevent the host's default extremes computation; otherwise leave the previous
extremes alone and let the default run. -/
def getSeriesExtremesHandler (hasParallelCoordinates isXAxis : Bool)
    (index : ℕ) (series : List ExSeries) (prevMin prevMax : Option ℚ) :
    ExtremesResult :=
  if hasParallelCoordinates && !isXAxis then
    let currentPoints := gatherCurrentPoints series index
    ⟨arrayMin currentPoints, arrayMax currentPoints, true⟩
  else
    ⟨prevMin, prevMax, false⟩

/- ===== Chart init handler and setParallelInfo (source lines 127-179 and
   215-231) ===== -/

/-- A configured series' options: only its `data` array matters to this
module. `none` is an absent (or `null`) `data` property. -/
structure SeriesCfg where
  data : Option (List (Option ℚ))
deriving DecidableEq

/-- The `chart` block of the user options. -/
structure ChartCfg where
  parallelCoordinates : Option Bool
deriving DecidableEq

/-- The `legend` block of the user options. -/
structure LegendCfg where
  enabled : Option Bool
deriving DecidableEq

/-- The `boost` block of the user options. -/
structure BoostCfg where
  seriesThreshold : Option ℤ
deriving DecidableEq

/-- The `plotOptions.series` block of the user options. -/
structure PlotSeriesCfg where
  boostThreshold : Option ℤ
deriving DecidableEq

/-- The `plotOptions` block of the user options. -/
structure PlotOptionsCfg where
  series : Option PlotSeriesCfg
deriving DecidableEq

/-- An X-axis definition: only the fields touched by the module's
`defaultXAxisOptions` are modelled. -/
structure XAxisCfg where
  type : Option String
  opposite : Option Bool
deriving DecidableEq

/-- The module's `defaultXAxisOptions` (source lines 36-40). -/
def defaultXAxisOptions : XAxisCfg := ⟨some ("category"), some true⟩

/-- Modelled from the spec: the host utility `H.merge` (parts/Globals.js, not
under src/) copies defined properties of later arguments over earlier ones;
fieldwise on the two modelled X-axis fields. -/
def mergeXAxis (d u : XAxisCfg) : XAxisCfg :=
  ⟨if u.type.isSome then u.type else d.type,
   if u.opposite.isSome then u.opposite else d.opposite⟩

/-- A Y-axis definition. The init handler only counts these and pushes empty
placeholder objects, so the contents are irrelevant and modelled as `Unit`;
the placeholder `{}` is `()`. -/
abbrev YAxisCfg := Unit

/-- The user options object as read and written by the chart `init` handler. -/
structure InitOptions where
  chart : Option ChartCfg
  series : Option (List SeriesCfg)
  yAxis : Option (SplatVal YAxisCfg)
  xAxis : Option (SplatVal XAxisCfg)
  legend : Option LegendCfg
  boost : Option BoostCfg
  plotOptions : Option PlotOptionsCfg
deriving DecidableEq

/-- Modelled from the spec: the host utility `H.each` (parts/Globals.js, not
under src/), used here as a fold; per the spec every operation is total over
possibly-empty inputs, so iteration over an absent collection visits
nothing. -/
def eachFold {α β : Type} (coll : Option (List α)) (f : β → α → β) (b : β) :
    β :=
  (coll.getD []).foldl f b

/-- The body of the `each` inside `setParallelInfo` (source lines 223-230):
a series without a `data` property leaves the counter alone, one with data
raises it to `data.length - 1`. -/
def parallelCounterStep (counter : ℤ) (s : SeriesCfg) : ℤ :=
  match s.data with
  | none => counter
  | some d => max counter ((d.length : ℤ) - 1)

/-- `Chart.setParallelInfo` (source lines 215-231): the resulting
`parallelInfo.counter`, starting at 0 and raised to `series.data.length - 1`
for every configured series with a `data` property. -/
def setParallelInfo (options : InitOptions) : ℤ :=
  eachFold options.series parallelCounterStep 0

/-- `options.chart && options.chart.parallelCoordinates` collapsed to a
boolean (source lines 139-140). -/
def chartHasParallel (options : InitOptions) : Bool :=
  match options.chart with
  | none => false
  | some c => c.parallelCoordinates.getD false

/-- The first entry of `splat(options.xAxis || {})` (source lines 174-177);
`undefined` when the user supplied an empty array, which `H.merge` then
ignores, so it is replaced by an all-absent definition. -/
def userXAxisHead (options : InitOptions) : XAxisCfg :=
  ((splat (options.xAxis.getD (SplatVal.single ⟨none, none⟩))).head?).getD
    ⟨none, none⟩

/-- The outcome of the chart `init` event handler: the flag stored on the
chart, the computed `parallelInfo.counter` (when parallel mode is on), and
the mutated options object. -/
structure InitResult where
  hasParallelCoordinates : Bool
  parallelCounter : Option ℤ
  options : InitOptions
deriving DecidableEq

/-- The chart `init` event handler (source lines 127-179): when
`chart.parallelCoordinates` is set, compute `parallelInfo`, pad the splatted
user Y-axis list with empty placeholders while its length is at most the
counter, default `legend.enabled` to `false` when undefined, force the boost
thresholds to `Number.MAX_SAFE_INTEGER`, and replace the X-axis options with
the merge of `defaultXAxisOptions` under the first user X-axis entry. -/
def chartInitHandler (options : InitOptions) : InitResult :=
  let defaultyAxis := splat (options.yAxis.getD (SplatVal.single ()))
  let yAxisLength := defaultyAxis.length
  let hasPar := chartHasParallel options
  if hasPar then
    let counter := setParallelInfo options
    let newYAxes : List YAxisCfg :=
      List.replicate (counter + 1 - (yAxisLength : ℤ)).toNat ()
    let legend0 := options.legend.getD ⟨none⟩
    let legend1 : LegendCfg :=
      ⟨if legend0.enabled.isSome then legend0.enabled else some false⟩
    { hasParallelCoordinates := true,
      parallelCounter := some counter,
      options :=
        { options with
          legend := some legend1,
          boost := some ⟨some maxSafeInteger⟩,
          plotOptions := some ⟨some ⟨some maxSafeInteger⟩⟩,
          yAxis := some (SplatVal.array (defaultyAxis ++ newYAxes)),
          xAxis := some (SplatVal.single
            (mergeXAxis defaultXAxisOptions (userXAxisHead options))) } }
  else
    { hasParallelCoordinates := false,
      parallelCounter := none,
      options := options }

/-- The number of Y-axis option entries held by a (possibly rewritten)
options object. -/
def yAxisCount (r : InitResult) : ℕ :=
  match r.options.yAxis with
  | none => 0
  | some (SplatVal.single _) => 1
  | some (SplatVal.array l) => l.length

/-- Per the claim's words: the maximum data length over the configured
series, `0` if no series define data. -/
def specMaxDataLen (options : InitOptions) : ℕ :=
  ((options.series.getD []).map (fun s => (s.data.getD []).length)).foldl
    max 0

/- ===== Series-to-axis binding (bindAxes wrap, source lines 331-343) ===== -/

/-- An axis as seen by `bindAxes`: its owned-series collection (series
identified by number) and its dirty flag. -/
structure BAxis where
  series : List ℕ
  isDirty : Bool
deriving DecidableEq

/-- The chart as seen by `bindAxes`. -/
structure BChart where
  hasParallelCoordinates : Bool
  axes : List BAxis
  xAxis : List ℕ
  yAxis : List ℕ
deriving DecidableEq

/-- The state touched by the `bindAxes` wrap: the chart, the series being
bound (by identifier), and the series' own axis references. -/
structure BindState where
  chart : BChart
  seriesId : ℕ
  seriesXAxis : Option ℕ
  seriesYAxis : Option ℕ
deriving DecidableEq

/-- Modelled from the spec: the host method `Series.prototype.insert`
(parts/Series.js, not under src/) places the series into an axis's
owned-series collection; modelled as appending. -/
def seriesInsert (sid : ℕ) (coll : List ℕ) : List ℕ :=
  coll ++ [sid]

/-- The `bindAxes` wrap (source lines 331-343): in parallel mode, insert the
series into every chart axis's series collection and mark each axis dirty,
then point the series' own `xAxis`/`yAxis` at `chart.xAxis[0]` and
`chart.yAxis[0]`; otherwise run the host's original `bindAxes` (the
`proceed` argument). -/
def bindAxesWrap (proceed : BindState → BindState) (st : BindState) :
    BindState :=
  if st.chart.hasParallelCoordinates then
    { st with
      chart :=
        { st.chart with
          axes := st.chart.axes.map (fun axis =>
            { axis with
              series := seriesInsert st.seriesId axis.series,
              isDirty := true }) },
      seriesXAxis := st.chart.xAxis.head?,
      seriesYAxis := st.chart.yAxis.head? }
  else
    proceed st

/- ===== Point translation (afterTranslate handler, source
   lines 349-397) ===== -/

/-- A rendered Y-axis as read by the translate handler: its polar angle (in
radians, possibly unset), its pixel `top` and `left`, and the host's
value-to-pixel `translate` method, taken as an opaque function. -/
structure TAxis where
  angleRad : Option ℚ
  top : ℚ
  left : ℚ
  translate : ℚ → ℚ

instance : Inhabited TAxis := ⟨⟨none, 0, 0, fun _ => 0⟩⟩

/-- The chart as read by the translate handler; `isInsidePlot` is the host's
plot-box containment test, taken as an opaque function of
`(plotX, plotY, inverted)`. -/
structure TChart where
  hasParallelCoordinates : Bool
  polar : Bool
  inverted : Bool
  plotHeight : ℚ
  plotTop : ℚ
  plotLeft : ℚ
  yAxis : List TAxis
  isInsidePlot : ℚ → ℚ → Bool → Bool

/-- A point as touched by the translate handler. `none` fields were never
assigned (`undefined`). -/
structure TPoint where
  y : Option ℚ
  plotX : Option ℚ
  clientX : Option ℚ
  plotY : Option ℚ
  isInside : Option Bool
  isNull : Option Bool

/-- A series as touched by the translate handler. -/
structure TSeries where
  points : List TPoint
  closestPointRangePx : Option ℚ

/-- The `plotX` assigned to a defined point of dimension `i` (source lines
363-373): the axis's `angleRad || 0` in polar mode, an offset derived from
the axis's `top` when inverted, and from its `left` otherwise. -/
def parallelPlotX (chart : TChart) (axis : TAxis) : ℚ :=
  if chart.polar then
    axis.angleRad.getD 0
  else if chart.inverted then
    chart.plotHeight - axis.top + chart.plotTop
  else
    axis.left - chart.plotLeft

/-- The loop body of the `afterTranslate` handler (source lines 360-394),
walking the points with the dimension index, the last defined point's
`plotX`, and the accumulated `closestPointRangePx`. `none` is the TypeError
the JavaScript would throw when `chart.yAxis[i]` is missing for a defined
point. -/
def translateParallelPoints (chart : TChart) :
    List TPoint → ℕ → Option ℚ → ℚ → Option (List TPoint × ℚ)
  | [], _, _, closest => some ([], closest)
  | p :: ps, i, lastPlotX, closest =>
    match p.y with
    | none =>
      (translateParallelPoints chart ps (i + 1) lastPlotX closest).map
        (fun r => ({ p with isNull := some true } :: r.1, r.2))
    | some yv =>
      match chart.yAxis.get? i with
      | none => none
      | some axis =>
        let plotX := parallelPlotX chart axis
        let plotY := axis.translate yv
        let closest1 :=
          match lastPlotX with
          | none => closest
          | some lx => min closest |plotX - lx|
        let p1 : TPoint :=
          { p with
            plotX := some plotX,
            clientX := some plotX,
            plotY := some plotY,
            isInside := some (chart.isInsidePlot plotX plotY chart.inverted) }
        (translateParallelPoints chart ps (i + 1) (some plotX) closest1).map
          (fun r => (p1 :: r.1, r.2))

/-- The `afterTranslate` event handler (source lines 349-397): in parallel
mode, rewrite every point's pixel data and store the accumulated
`closestPointRangePx` (starting from `Number.MAX_VALUE`) on the series. -/
def afterTranslateHook (chart : TChart) (s : TSeries) : Option TSeries :=
  if chart.hasParallelCoordinates then
    (translateParallelPoints chart s.points 0 none numberMaxValue).map
      (fun r => { s with points := r.1, closestPointRangePx := some r.2 })
  else
    some s

/-- Per the claim's words: how one point of dimension `i` is translated.
A point with undefined `y` is only marked `isNull`; a defined point gets
`plotX`/`clientX` from its dimension's axis geometry, `plotY` from that
axis's value-to-pixel translation, and `isInside` from the chart's plot-box
containment test. -/
def specTranslatePoint (chart : TChart) (i : ℕ) (p : TPoint) : TPoint :=
  match p.y with
  | none => { p with isNull := some true }
  | some yv =>
    let axis := chart.yAxis.getD i default
    let plotX := parallelPlotX chart axis
    let plotY := axis.translate yv
    { p with
      plotX := some plotX,
      clientX := some plotX,
      plotY := some plotY,
      isInside := some (chart.isInsidePlot plotX plotY chart.inverted) }

/-- Per the claim's words: all points translated, dimension indices running
along the series. -/
def specTranslatedPoints (chart : TChart) : List TPoint → ℕ → List TPoint
  | [], _ => []
  | p :: ps, i => specTranslatePoint chart i p :: specTranslatedPoints chart ps (i + 1)

/-- Per the claim's words: the `plotX` values of the defined points, in
series order. -/
def definedPlotXs (chart : TChart) : List TPoint → ℕ → List ℚ
  | [], _ => []
  | p :: ps, i =>
    if p.y.isSome then
      parallelPlotX chart (chart.yAxis.getD i default) ::
        definedPlotXs chart ps (i + 1)
    else
      definedPlotXs chart ps (i + 1)

/-- The absolute differences of consecutive entries of a list. -/
def consecDiffs : List ℚ → List ℚ
  | x :: y :: rest => |y - x| :: consecDiffs (y :: rest)
  | _ => []

/-- Per the claim's words: the minimum absolute difference between
consecutive defined points' `plotX`, the sentinel `Number.MAX_VALUE` when
fewer than two defined points exist. -/
def specClosestRange (xs : List ℚ) : ℚ :=
  (consecDiffs xs).foldl min numberMaxValue

/- ===== Series destruction (destroy handler, source lines 402-411) ===== -/

/-- An axis as seen by the destroy handler; its series collection may be
absent. -/
structure DAxis where
  series : Option (List ℕ)
  isDirty : Bool
  forceRedraw : Bool
deriving DecidableEq

/-- The chart as seen by the destroy handler; the whole axis list may be
absent during teardown, and individual entries may be `null`. -/
structure DChart where
  axes : Option (List (Option DAxis))
deriving DecidableEq

/-- Modelled from the spec: the host utility `H.erase` (parts/Globals.js, not
under src/) scans the array from the end and removes the first hit, i.e. the
last occurrence of the item. -/
def erase (arr : List ℕ) (item : ℕ) : List ℕ :=
  (arr.reverse.erase item).reverse

/-- One iteration of the destroy handler's `each` (source lines 404-409): the
guard `axis && axis.series` skips a `null` axis or one without a series
collection; otherwise the series is erased and the axis marked dirty and
forced to redraw. The outer `Option` is the TypeError a dereference of a
missing object would throw; the guarded dereferences are spelled out so that
the embedding fails exactly where the JavaScript would. -/
def destroyVisit (sid : ℕ) (axis? : Option DAxis) : Option (Option DAxis) :=
  if axis?.isSome && (axis?.bind DAxis.series).isSome then do
    let axis ← axis?
    let s ← axis.series
    some (some
      { axis with
        series := some (erase s sid),
        isDirty := true,
        forceRedraw := true })
  else
    some axis?

/-- The `each` of the destroy handler: visit the axis entries in order,
stopping with `none` as soon as one visit throws. -/
def destroyEach (sid : ℕ) : List (Option DAxis) → Option (List (Option DAxis))
  | [] => some []
  | a :: as =>
    match destroyVisit sid a with
    | none => none
    | some b => (destroyEach sid as).map (fun bs => b :: bs)

/-- The series `destroy` event handler (source lines 402-411): in parallel
mode iterate `chart.axes || []` with `destroyVisit`; outside parallel mode do
nothing. `none` is a thrown TypeError. -/
def seriesDestroyHandler (hasParallelCoordinates : Bool) (sid : ℕ)
    (c : DChart) : Option DChart :=
  if hasParallelCoordinates then
    match c.axes with
    | none => some c
    | some axs => (destroyEach sid axs).map (fun l => ⟨some l⟩)
  else
    some c

/- ===== Label formatting (addFormattedValue and the getLabelConfig wrap,
   source lines 413-491) ===== -/

/-- A resolved formatted value. The host formatters `H.format` and
`chart.time.dateFormat` (not under src/) are opaque, so their results are
represented symbolically by the template or date format applied and the raw
value passed. -/
inductive FV where
  | fmtTemplate (template : String) (y : Option ℚ)
  | dateFmt (f : Option String) (y : Option ℚ)
  | cat (name : Option String)
  | raw (y : Option ℚ)
deriving DecidableEq

/-- The Y-axis options read by `addFormattedValue`. -/
structure LAxisOptions where
  tooltipValueFormat : Option String
  labelsFormat : Option String
  categories : Option (List String)
  dateTimeLabelFormats : List (String × String)
deriving DecidableEq

/-- A Y-axis as read by `addFormattedValue`; `tickUnitName` is
`tickPositions.info.unitName`. -/
structure LAxis where
  options : LAxisOptions
  isDatetimeAxis : Bool
  tickUnitName : String
deriving DecidableEq

/-- The chart as read by `addFormattedValue`. -/
structure LChart where
  hasParallelCoordinates : Bool
  yAxis : List LAxis
deriving DecidableEq

/-- A line/spline point as read by `addFormattedValue`: `x` is its dimension
index, `y` its raw value. -/
structure LPoint where
  x : ℕ
  y : Option ℚ
  formattedValue : Option FV
deriving DecidableEq

/-- The label config returned by the host's `getLabelConfig`; its `point`
field aliases the point itself. -/
structure LabelConfig where
  point : LPoint
  formattedValue : Option FV
deriving DecidableEq

/-- JavaScript truthiness of an optional string: `undefined`, `null` and the
empty string are falsy. -/
def jsStringTruthy : Option String → Bool
  | none => false
  | some s => !s.isEmpty

/-- `yAxisOptions.dateTimeLabelFormats[unitName]`. -/
def lookupFormat (formats : List (String × String)) (unitName : String) :
    Option String :=
  (formats.find? (fun p => p.1 = unitName)).map (fun p => p.2)

/-- `categories[this.y]`: a JavaScript array indexing by a number, defined
only for a non-negative integer index within range. -/
def categoriesAt (cats : List String) (y : Option ℚ) : Option String :=
  match y with
  | none => none
  | some q =>
    if q.den = 1 && 0 ≤ q.num then cats.get? q.num.toNat else none

/-- `addFormattedValue` (source lines 413-483), applied to the label config
produced by the host's `getLabelConfig`: on a parallel-coordinates chart,
when no formatted value is set yet, resolve one from the point's Y-axis --
an explicit format template (`tooltipValueFormat`, else `labels.format`) if
truthy, else the axis's datetime label format if it is a datetime axis, else
the category name at the raw value if the axis has categories, else the raw
value -- and write it onto both the config and the point. `none` is the
TypeError thrown when `chart.yAxis[this.x]` is missing. -/
def addFormattedValue (chart : Option LChart) (config : LabelConfig) :
    Option LabelConfig :=
  match chart with
  | none => some config
  | some ch =>
    if ch.hasParallelCoordinates && config.formattedValue.isNone then
      match ch.yAxis.get? config.point.x with
      | none => none
      | some yAxis =>
        let yAxisOptions := yAxis.options
        let labelFormat :=
          pick yAxisOptions.tooltipValueFormat yAxisOptions.labelsFormat
        let formattedValue : FV :=
          if jsStringTruthy labelFormat then
            FV.fmtTemplate (labelFormat.getD ("")) config.point.y
          else if yAxis.isDatetimeAxis then
            FV.dateFmt
              (lookupFormat yAxisOptions.dateTimeLabelFormats
                yAxis.tickUnitName)
              config.point.y
          else if yAxisOptions.categories.isSome then
            FV.cat (categoriesAt (yAxisOptions.categories.getD [])
              config.point.y)
          else
            FV.raw config.point.y
        some
          { config with
            formattedValue := some formattedValue,
            point := { config.point with formattedValue := some formattedValue } }
    else
      some config

/- ===== Concrete inputs used by witnesses and counterexamples ===== -/

/-- A polar parallel axis state: first axis of one dimension. -/
def stC3polar : ParallelAxisState :=
  { polar := true, inverted := false, parallelPosition := 0, counter := 0,
    axisGeom := fun _ => none, optGeom := fun _ => none, optAngle := none }

/-- A linear, non-inverted parallel axis state: axis 1 of 4 dimensions. -/
def stC3linear : ParallelAxisState :=
  { polar := false, inverted := false, parallelPosition := 1, counter := 3,
    axisGeom := fun _ => none, optGeom := fun _ => none, optAngle := none }

/-- A linear, non-inverted axis state carrying stale geometry from a previous
layout. -/
def stC7straight : ParallelAxisState :=
  { polar := false, inverted := false, parallelPosition := 0, counter := 1,
    axisGeom := fun _ => some (GeomVal.num 7),
    optGeom := fun _ => some (GeomVal.num 7), optAngle := none }

/-- An inverted linear axis state carrying stale geometry from a previous
layout. -/
def stC7inverted : ParallelAxisState :=
  { polar := false, inverted := true, parallelPosition := 0, counter := 1,
    axisGeom := fun _ => some (GeomVal.num 7),
    optGeom := fun _ => some (GeomVal.num 7), optAngle := none }

/-- The spec's extremes example: three bound series whose data arrays are
`[1,5]`, `[2,null]` and `[3,7]`. -/
def exC2Series : List ExSeries :=
  [⟨[some 1, some 5]⟩, ⟨[some 2, none]⟩, ⟨[some 3, some 7]⟩]

/-- Parallel mode enabled, an empty series list, no user axes. -/
def exC4bad : InitOptions :=
  { chart := some ⟨some true⟩, series := some [], yAxis := none,
    xAxis := none, legend := none, boost := none, plotOptions := none }

/-- Parallel mode enabled with three series of data lengths 4, 3 and 5. -/
def exC4demo : InitOptions :=
  { chart := some ⟨some true⟩,
    series := some [⟨some (List.replicate 4 (some 0))⟩,
      ⟨some (List.replicate 3 (some 0))⟩,
      ⟨some (List.replicate 5 (some 0))⟩],
    yAxis := none, xAxis := none, legend := none, boost := none,
    plotOptions := none }

/-- Parallel mode enabled with no series configured at all. -/
def exC9none : InitOptions :=
  { chart := some ⟨some true⟩, series := none, yAxis := none,
    xAxis := none, legend := none, boost := none, plotOptions := none }

/-- A parallel chart with two axes, about to bind series 3. -/
def exC6bind : BindState :=
  { chart :=
      { hasParallelCoordinates := true,
        axes := [⟨[], false⟩, ⟨[7], false⟩],
        xAxis := [10], yAxis := [11] },
    seriesId := 3, seriesXAxis := none, seriesYAxis := none }

/-- A chart whose axis list is already gone at series destruction time. -/
def exC10gone : DChart := ⟨none⟩

/-- A linear three-axis chart for the translate handler; the host translate
is the identity and the containment test always succeeds. -/
def exC5Chart : TChart :=
  { hasParallelCoordinates := true, polar := false, inverted := false,
    plotHeight := 0, plotTop := 0, plotLeft := 2,
    yAxis := [⟨none, 0, 10, fun v => v⟩, ⟨none, 0, 20, fun v => v⟩,
      ⟨none, 0, 30, fun v => v⟩],
    isInsidePlot := fun _ _ _ => true }

/-- A series of three points whose middle value is undefined. -/
def exC5Series : TSeries :=
  { points := [⟨some 1, none, none, none, none, none⟩,
      ⟨none, none, none, none, none, none⟩,
      ⟨some 5, none, none, none, none, none⟩],
    closestPointRangePx := none }

/-- A Y-axis that is simultaneously a datetime axis and has categories, with
no explicit format template set. -/
def exC1Axis : LAxis :=
  { options :=
      { tooltipValueFormat := none, labelsFormat := none,
        categories := some [("A"), ("B")],
        dateTimeLabelFormats := [(("day"), ("%e. %b"))] },
    isDatetimeAxis := true, tickUnitName := ("day") }

/-- A parallel chart whose only Y-axis is `exC1Axis`. -/
def exC1Chart : LChart :=
  { hasParallelCoordinates := true, yAxis := [exC1Axis] }

/-- The label config of a point at dimension 0 with raw value 0, before any
formatted value is set. -/
def exC1Config : LabelConfig :=
  { point := { x := 0, y := some 0, formattedValue := none },
    formattedValue := none }

end ParallelCoordinates

namespace ParallelCoordinates

/- ===== Theorems ===== -/

theorem upd4_idem (g : Role → Option GeomVal) (a b c d : Role)
    (va vb vc vd : Option GeomVal) :
    Function.update (Function.update (Function.update (Function.update
      (Function.update (Function.update (Function.update
        (Function.update g a va) b vb) c vc) d vd)
      a va) b vb) c vc) d vd
    = Function.update (Function.update (Function.update
        (Function.update g a va) b vb) c vc) d vd := by
  funext x
  simp only [Function.update_apply]
  split_ifs <;> rfl

theorem upd3_idem (g : Role → Option GeomVal) (b c d : Role)
    (vb vc vd : Option GeomVal) :
    Function.update (Function.update (Function.update
      (Function.update (Function.update (Function.update g b vb) c vc) d vd)
      b vb) c vc) d vd
    = Function.update (Function.update (Function.update g b vb) c vc) d vd := by
  funext x
  simp only [Function.update_apply]
  split_ifs <;> rfl

/-- C3: for a Y-axis at parallel position `i` among `counter + 1` dimensions,
`setParallelPosition` (with the role order the `afterSetOptions` handler
supplies) sets, in polar mode, the options' angle to `360 * (i + 0.5) / N`
degrees, and in linear mode the first role's option to the percentage string
`100 * (i + 0.5) / N + '%'` and the size role to `0` on both the axis and its
options. -/
theorem c3_setParallelPosition_fraction (st : ParallelAxisState) :
    (st.polar = true →
      (setParallelPosition (axisPositionFor st.inverted) st).optAngle =
        some (360 * (((st.parallelPosition : ℚ) + 1 / 2) /
          ((st.counter : ℚ) + 1))))
    ∧ (st.polar = false →
      (setParallelPosition (axisPositionFor st.inverted) st).optGeom
          (axisPositionFor st.inverted).r0 =
        some (GeomVal.percentStr (100 * (((st.parallelPosition : ℚ) + 1 / 2) /
          ((st.counter : ℚ) + 1))))
      ∧ (setParallelPosition (axisPositionFor st.inverted) st).optGeom
          (axisPositionFor st.inverted).r1 = some (GeomVal.num 0)
      ∧ (setParallelPosition (axisPositionFor st.inverted) st).axisGeom
          (axisPositionFor st.inverted).r1 = some (GeomVal.num 0)) := by
  constructor
  · intro hp
    simp [setParallelPosition, hp, fractionOf]
  · intro hp
    cases hi : st.inverted <;>
      simp [setParallelPosition, hp, hi, axisPositionFor, axisPositionBase,
        reverseRoles, fractionOf, Function.update_apply]

theorem c3_setParallelPosition_fraction_witness :
    (stC3polar.polar = true ∧
      (setParallelPosition (axisPositionFor stC3polar.inverted)
          stC3polar).optAngle =
        some (360 * (((stC3polar.parallelPosition : ℚ) + 1 / 2) /
          ((stC3polar.counter : ℚ) + 1))))
    ∧ (stC3linear.polar = false ∧
      (setParallelPosition (axisPositionFor stC3linear.inverted)
          stC3linear).optGeom (axisPositionFor stC3linear.inverted).r0 =
        some (GeomVal.percentStr (100 *
          (((stC3linear.parallelPosition : ℚ) + 1 / 2) /
            ((stC3linear.counter : ℚ) + 1))))) :=
  ⟨⟨rfl, (c3_setParallelPosition_fraction stC3polar).1 rfl⟩,
   ⟨rfl, ((c3_setParallelPosition_fraction stC3linear).2 rfl).1⟩⟩

/-- C7: in a linear parallel layout the role order is
`['left', 'width', 'height', 'top']`, reversed when the chart is inverted;
after positioning, the offset role holds the percentage, the size role is `0`
on both the axis and its options, and the two orthogonal roles are cleared to
`null` on both, whatever geometry was there before. -/
theorem c7_geometry_role_order (st : ParallelAxisState) :
    (axisPositionFor false = axisPositionBase
      ∧ axisPositionFor true = reverseRoles axisPositionBase)
    ∧ (st.polar = false ∧ st.inverted = false →
      (afterSetOptionsPosition st).optGeom Role.left =
        some (GeomVal.percentStr (100 * fractionOf st))
      ∧ (afterSetOptionsPosition st).optGeom Role.width = some (GeomVal.num 0)
      ∧ (afterSetOptionsPosition st).axisGeom Role.width = some (GeomVal.num 0)
      ∧ (afterSetOptionsPosition st).optGeom Role.height = some GeomVal.jsNull
      ∧ (afterSetOptionsPosition st).axisGeom Role.height = some GeomVal.jsNull
      ∧ (afterSetOptionsPosition st).optGeom Role.top = some GeomVal.jsNull
      ∧ (afterSetOptionsPosition st).axisGeom Role.top = some GeomVal.jsNull)
    ∧ (st.polar = false ∧ st.inverted = true →
      (afterSetOptionsPosition st).optGeom Role.top =
        some (GeomVal.percentStr (100 * fractionOf st))
      ∧ (afterSetOptionsPosition st).optGeom Role.height = some (GeomVal.num 0)
      ∧ (afterSetOptionsPosition st).axisGeom Role.height = some (GeomVal.num 0)
      ∧ (afterSetOptionsPosition st).optGeom Role.width = some GeomVal.jsNull
      ∧ (afterSetOptionsPosition st).axisGeom Role.width = some GeomVal.jsNull
      ∧ (afterSetOptionsPosition st).optGeom Role.left = some GeomVal.jsNull
      ∧ (afterSetOptionsPosition st).axisGeom Role.left = some GeomVal.jsNull) := by
  refine ⟨⟨rfl, rfl⟩, ?_, ?_⟩ <;>
    rintro ⟨hp, hi⟩ <;>
      simp [afterSetOptionsPosition, setParallelPosition, hp, hi,
        axisPositionFor, axisPositionBase, reverseRoles,
        Function.update_apply]

theorem c7_geometry_role_order_witness :
    ((stC7straight.polar = false ∧ stC7straight.inverted = false) ∧
      (afterSetOptionsPosition stC7straight).optGeom Role.top =
        some GeomVal.jsNull)
    ∧ ((stC7inverted.polar = false ∧ stC7inverted.inverted = true) ∧
      (afterSetOptionsPosition stC7inverted).optGeom Role.left =
        some GeomVal.jsNull) :=
  ⟨⟨⟨rfl, rfl⟩,
    ((c7_geometry_role_order stC7straight).2.1 ⟨rfl, rfl⟩).2.2.2.2.2.2⟩,
   ⟨⟨rfl, rfl⟩,
    ((c7_geometry_role_order stC7inverted).2.2 ⟨rfl, rfl⟩).2.2.2.2.2.2⟩⟩

/-- C8: `setParallelPosition` is deterministic and idempotent: with the
chart flags, parallel position, dimension counter and role order fixed,
applying it twice to an axis and its options yields exactly the state of
applying it once. -/
theorem c8_setParallelPosition_idempotent (ap : RoleOrder)
    (st : ParallelAxisState) :
    setParallelPosition ap (setParallelPosition ap st) =
      setParallelPosition ap st := by
  cases st with
  | mk polar inverted pp cnt ag og oa =>
    cases polar
    · simp only [setParallelPosition, fractionOf, Bool.false_eq_true,
        if_false]
      exact congrArg₂ (fun x y =>
        ParallelAxisState.mk false inverted pp cnt x y oa)
        (upd3_idem ag ap.r1 ap.r2 ap.r3 _ _ _)
        (upd4_idem og ap.r0 ap.r1 ap.r2 ap.r3 _ _ _ _)
    · simp [setParallelPosition, fractionOf]

theorem foldlMin_mem : ∀ (xs : List ℚ) (x : ℚ), xs.foldl min x ∈ x :: xs := by
  intro xs
  induction xs with
  | nil => intro x; simp
  | cons y ys ih =>
    intro x
    rw [List.foldl_cons]
    rcases List.mem_cons.mp (ih (min x y)) with h1 | h1
    · rw [h1]
      rcases min_choice x y with hc | hc
      · rw [hc]; exact List.mem_cons_self _ _
      · rw [hc]; exact List.mem_cons_of_mem _ (List.mem_cons_self _ _)
    · exact List.mem_cons_of_mem _ (List.mem_cons_of_mem _ h1)

theorem foldlMin_le : ∀ (xs : List ℚ) (x v : ℚ), v ∈ x :: xs →
    xs.foldl min x ≤ v := by
  intro xs
  induction xs with
  | nil =>
    intro x v hv
    rw [List.mem_singleton] at hv
    simp [hv]
  | cons y ys ih =>
    intro x v hv
    rw [List.foldl_cons]
    have hbase : ys.foldl min (min x y) ≤ min x y :=
      ih (min x y) (min x y) (List.mem_cons_self _ _)
    rcases List.mem_cons.mp hv with hvx | hv1
    · rw [hvx]; exact le_trans hbase (min_le_left _ _)
    · rcases List.mem_cons.mp hv1 with hvy | hv2
      · rw [hvy]; exact le_trans hbase (min_le_right _ _)
      · exact ih (min x y) v (List.mem_cons_of_mem _ hv2)

theorem foldlMax_mem : ∀ (xs : List ℚ) (x : ℚ), xs.foldl max x ∈ x :: xs := by
  intro xs
  induction xs with
  | nil => intro x; simp
  | cons y ys ih =>
    intro x
    rw [List.foldl_cons]
    rcases List.mem_cons.mp (ih (max x y)) with h1 | h1
    · rw [h1]
      rcases max_choice x y with hc | hc
      · rw [hc]; exact List.mem_cons_self _ _
      · rw [hc]; exact List.mem_cons_of_mem _ (List.mem_cons_self _ _)
    · exact List.mem_cons_of_mem _ (List.mem_cons_of_mem _ h1)

theorem foldlMax_ge : ∀ (xs : List ℚ) (x v : ℚ), v ∈ x :: xs →
    v ≤ xs.foldl max x := by
  intro xs
  induction xs with
  | nil =>
    intro x v hv
    rw [List.mem_singleton] at hv
    simp [hv]
  | cons y ys ih =>
    intro x v hv
    rw [List.foldl_cons]
    have hbase : max x y ≤ ys.foldl max (max x y) :=
      ih (max x y) (max x y) (List.mem_cons_self _ _)
    rcases List.mem_cons.mp hv with hvx | hv1
    · rw [hvx]; exact le_trans (le_max_left _ _) hbase
    · rcases List.mem_cons.mp hv1 with hvy | hv2
      · rw [hvy]; exact le_trans (le_max_right _ _) hbase
      · exact ih (max x y) v (List.mem_cons_of_mem _ hv2)

/-- C2: for every non-X axis of a parallel-coordinates chart at parallel
position `index`, the extremes handler sets `dataMin`/`dataMax` to the
minimum/maximum of the defined `yData[index]` values of the bound series
(undefined and null entries skipped) and prevents the host's default
full-range aggregation; in particular for bound series with data `[1,5]`,
`[2,null]`, `[3,7]` at position 1, `dataMin = 5` and `dataMax = 7`. -/
theorem c2_getSeriesExtremes_indexwise (ss : List ExSeries) (index : ℕ)
    (prevMin prevMax : Option ℚ)
    (hne : gatherCurrentPoints ss index ≠ []) :
    (∃ m M, getSeriesExtremesHandler true false index ss prevMin prevMax =
        ⟨some m, some M, true⟩
      ∧ m ∈ gatherCurrentPoints ss index
      ∧ (∀ v ∈ gatherCurrentPoints ss index, m ≤ v)
      ∧ M ∈ gatherCurrentPoints ss index
      ∧ (∀ v ∈ gatherCurrentPoints ss index, v ≤ M))
    ∧ getSeriesExtremesHandler true false 1 exC2Series none none =
        ⟨some 5, some 7, true⟩ := by
  constructor
  · cases h : gatherCurrentPoints ss index with
    | nil => exact absurd h hne
    | cons x xs =>
      refine ⟨xs.foldl min x, xs.foldl max x, ?_, ?_, ?_, ?_, ?_⟩
      · simp [getSeriesExtremesHandler, h, arrayMin, arrayMax]
      · exact foldlMin_mem xs x
      · intro v hv; exact foldlMin_le xs x v hv
      · exact foldlMax_mem xs x
      · intro v hv; exact foldlMax_ge xs x v hv
  · decide

theorem c2_getSeriesExtremes_indexwise_witness :
    gatherCurrentPoints exC2Series 1 ≠ [] ∧
      ((∃ m M, getSeriesExtremesHandler true false 1 exC2Series none none =
          ⟨some m, some M, true⟩
        ∧ m ∈ gatherCurrentPoints exC2Series 1
        ∧ (∀ v ∈ gatherCurrentPoints exC2Series 1, m ≤ v)
        ∧ M ∈ gatherCurrentPoints exC2Series 1
        ∧ (∀ v ∈ gatherCurrentPoints exC2Series 1, v ≤ M))
      ∧ getSeriesExtremesHandler true false 1 exC2Series none none =
          ⟨some 5, some 7, true⟩) :=
  ⟨by decide, c2_getSeriesExtremes_indexwise exC2Series 1 none none (by decide)⟩

/-- C4 counterexample: with parallel coordinates enabled and an empty series
list (no series define data, so the claim's `max(Li)` is 0), the init hook
leaves one Y-axis option entry — the splatted default placeholder — not the
zero entries the claim states. -/
theorem c4_counterexample_no_series :
    chartHasParallel exC4bad = true
    ∧ specMaxDataLen exC4bad = 0
    ∧ yAxisCount (chartInitHandler exC4bad) = 1
    ∧ yAxisCount (chartInitHandler exC4bad) ≠ specMaxDataLen exC4bad := by
  decide

theorem lengthAfterPad (n : ℕ) (c : ℤ) :
    n + (c + 1 - (n : ℤ)).toNat = max n (c + 1).toNat := by
  omega

/-- C4 (amended): with parallel coordinates enabled the init hook provisions
`max(u, counter + 1)` Y-axis option entries, where `u ≥ 1` is the length of
the splatted user Y-axis list (a single default placeholder when the user
supplied none) and `counter` is `setParallelInfo`'s maximum of
`data.length - 1` over the configured series — so 3 series of lengths 4, 3, 5
with no user Y-axes yield 5 entries, while no series yield the 1 placeholder
entry; the X-axis options become the merge of the `{type: category,
opposite: true}` defaults under the first user X-axis entry; `legend.enabled`
defaults to `false` when the user did not set it; and both
`boost.seriesThreshold` and `plotOptions.series.boostThreshold` are set to
`Number.MAX_SAFE_INTEGER`. -/
theorem c4_init_provisioning (options : InitOptions)
    (hp : chartHasParallel options = true) :
    yAxisCount (chartInitHandler options) =
      max (splat (options.yAxis.getD (SplatVal.single ()))).length
        (setParallelInfo options + 1).toNat
    ∧ (chartInitHandler options).options.xAxis =
        some (SplatVal.single
          (mergeXAxis defaultXAxisOptions (userXAxisHead options)))
    ∧ mergeXAxis defaultXAxisOptions (userXAxisHead options) =
        ⟨if (userXAxisHead options).type.isSome then (userXAxisHead options).type
          else some ("category"),
         if (userXAxisHead options).opposite.isSome then
          (userXAxisHead options).opposite else some true⟩
    ∧ (chartInitHandler options).options.legend =
        some ⟨some (((options.legend.getD ⟨none⟩).enabled).getD false)⟩
    ∧ (chartInitHandler options).options.boost = some ⟨some maxSafeInteger⟩
    ∧ (chartInitHandler options).options.plotOptions =
        some ⟨some ⟨some maxSafeInteger⟩⟩
    ∧ (chartInitHandler options).hasParallelCoordinates = true
    ∧ (chartInitHandler options).parallelCounter = some (setParallelInfo options)
    ∧ yAxisCount (chartInitHandler exC4demo) = 5 := by
  refine ⟨?_, ?_, ?_, ?_, ?_, ?_, ?_, ?_, ?_⟩
  · simp only [chartInitHandler, hp, if_true, yAxisCount,
      List.length_append, List.length_replicate]
    exact lengthAfterPad _ _
  · simp [chartInitHandler, hp]
  · rfl
  · cases hl : options.legend with
    | none => simp [chartInitHandler, hp, hl]
    | some lg =>
      cases he : lg.enabled with
      | none => simp [chartInitHandler, hp, hl, he]
      | some b => simp [chartInitHandler, hp, hl, he]
  · simp [chartInitHandler, hp]
  · simp [chartInitHandler, hp]
  · simp [chartInitHandler, hp]
  · simp [chartInitHandler, hp]
  · decide

theorem c4_init_provisioning_witness :
    chartHasParallel exC4demo = true ∧
      yAxisCount (chartInitHandler exC4demo) =
        max (splat (exC4demo.yAxis.getD (SplatVal.single ()))).length
          (setParallelInfo exC4demo + 1).toNat :=
  ⟨by decide, (c4_init_provisioning exC4demo (by decide)).1⟩

theorem parallelCounterStep_skip : ∀ (l : List SeriesCfg) (c : ℤ),
    (∀ s ∈ l, s.data = none) → l.foldl parallelCounterStep c = c := by
  intro l
  induction l with
  | nil => intro c _; rfl
  | cons s ss ih =>
    intro c h
    rw [List.foldl_cons]
    have hd : s.data = none := h s (List.mem_cons_self _ _)
    rw [show parallelCounterStep c s = c by
      simp [parallelCounterStep, hd]]
    exact ih c (fun t ht => h t (List.mem_cons_of_mem _ ht))

/-- C9: `setParallelInfo` is total and yields a dimension counter of 0 for
every options object in which no series are configured (the series property
is absent) or no configured series defines data. -/
theorem c9_setParallelInfo_empty_total (options : InitOptions)
    (h : options.series = none ∨
      ∀ s ∈ options.series.getD [], s.data = none) :
    setParallelInfo options = 0 := by
  rcases h with h | h
  · simp [setParallelInfo, eachFold, h]
  · cases hs : options.series with
    | none => simp [setParallelInfo, eachFold, hs]
    | some l =>
      rw [hs] at h
      simp only [Option.getD_some] at h
      simp only [setParallelInfo, eachFold, hs, Option.getD_some]
      exact parallelCounterStep_skip l 0 h

theorem c9_setParallelInfo_empty_total_witness :
    (exC9none.series = none ∨
      ∀ s ∈ exC9none.series.getD [], s.data = none)
    ∧ setParallelInfo exC9none = 0 :=
  ⟨Or.inl rfl, c9_setParallelInfo_empty_total exC9none (Or.inl rfl)⟩

/-- C6: in parallel mode the `bindAxes` wrap inserts the series into every
chart axis's owned-series collection and marks every axis dirty, and points
the series' own `xAxis`/`yAxis` at `chart.xAxis[0]` and `chart.yAxis[0]`;
when parallel coordinates is disabled the host's default `bindAxes` runs
unchanged. -/
theorem c6_bindAxes_all_axes (proceed : BindState → BindState)
    (st : BindState) :
    (st.chart.hasParallelCoordinates = true →
      (∀ axis ∈ (bindAxesWrap proceed st).chart.axes,
        st.seriesId ∈ axis.series ∧ axis.isDirty = true)
      ∧ (bindAxesWrap proceed st).chart.axes.length = st.chart.axes.length
      ∧ (bindAxesWrap proceed st).seriesXAxis = st.chart.xAxis.head?
      ∧ (bindAxesWrap proceed st).seriesYAxis = st.chart.yAxis.head?)
    ∧ (st.chart.hasParallelCoordinates = false →
      bindAxesWrap proceed st = proceed st) := by
  constructor
  · intro hp
    refine ⟨?_, ?_, ?_, ?_⟩
    · intro axis haxis
      simp only [bindAxesWrap, hp, if_true, List.mem_map] at haxis
      rcases haxis with ⟨a, _, rfl⟩
      exact ⟨by simp [seriesInsert], rfl⟩
    · simp [bindAxesWrap, hp]
    · simp [bindAxesWrap, hp]
    · simp [bindAxesWrap, hp]
  · intro hp
    simp [bindAxesWrap, hp]

theorem c6_bindAxes_all_axes_witness :
    exC6bind.chart.hasParallelCoordinates = true ∧
      (∀ axis ∈ (bindAxesWrap id exC6bind).chart.axes,
        exC6bind.seriesId ∈ axis.series ∧ axis.isDirty = true) :=
  ⟨rfl, ((c6_bindAxes_all_axes id exC6bind).1 rfl).1⟩

theorem destroyVisit_total (sid : ℕ) (axis? : Option DAxis) :
    (destroyVisit sid axis?).isSome = true := by
  cases axis? with
  | none => rfl
  | some a =>
    cases hs : a.series with
    | none => simp [destroyVisit, hs]
    | some s => simp [destroyVisit, hs]

theorem destroyEach_total (sid : ℕ) :
    ∀ l : List (Option DAxis), (destroyEach sid l).isSome = true := by
  intro l
  induction l with
  | nil => rfl
  | cons a as ih =>
    rcases Option.isSome_iff_exists.mp (destroyVisit_total sid a) with ⟨b, hb⟩
    rcases Option.isSome_iff_exists.mp ih with ⟨bs, hbs⟩
    simp [destroyEach, hb, hbs]

/-- C10: the series destroy handler never dereferences a missing axis list:
it always completes (no TypeError), when `chart.axes` is absent it iterates
an empty list and leaves the chart unchanged, and any axis entry that is
null or lacks a series collection is passed through untouched. -/
theorem c10_destroy_never_fails (sid : ℕ) (c : DChart) :
    (seriesDestroyHandler true sid c).isSome = true
    ∧ (c.axes = none → seriesDestroyHandler true sid c = some c)
    ∧ (∀ axis? : Option DAxis,
        axis? = none ∨ (∃ a, axis? = some a ∧ a.series = none) →
        destroyVisit sid axis? = some axis?) := by
  refine ⟨?_, ?_, ?_⟩
  · cases hax : c.axes with
    | none => simp [seriesDestroyHandler, hax]
    | some l =>
      rcases Option.isSome_iff_exists.mp (destroyEach_total sid l) with ⟨bs, hbs⟩
      simp [seriesDestroyHandler, hax, hbs]
  · intro h
    simp [seriesDestroyHandler, h]
  · rintro axis? (rfl | ⟨a, rfl, hs⟩)
    · rfl
    · simp [destroyVisit, hs]

theorem c10_destroy_never_fails_witness :
    exC10gone.axes = none ∧
      seriesDestroyHandler true 0 exC10gone = some exC10gone :=
  ⟨rfl, (c10_destroy_never_fails 0 exC10gone).2.1 rfl⟩

theorem getD_of_getQ {l : List TAxis} {i : ℕ} {ax : TAxis}
    (h : l.get? i = some ax) : l[i]? = some ax := by
  rw [← List.get?_eq_getElem?]
  exact h

theorem translateParallelPoints_spec (chart : TChart) :
    ∀ (ps : List TPoint) (i : ℕ), i + ps.length ≤ chart.yAxis.length →
      (∀ lx c : ℚ,
        translateParallelPoints chart ps i (some lx) c =
          some (specTranslatedPoints chart ps i,
            (consecDiffs (lx :: definedPlotXs chart ps i)).foldl min c))
      ∧ (∀ c : ℚ,
        translateParallelPoints chart ps i none c =
          some (specTranslatedPoints chart ps i,
            (consecDiffs (definedPlotXs chart ps i)).foldl min c)) := by
  intro ps
  induction ps with
  | nil =>
    intro i _
    constructor
    · intro lx c
      simp [translateParallelPoints, specTranslatedPoints, definedPlotXs,
        consecDiffs]
    · intro c
      simp [translateParallelPoints, specTranslatedPoints, definedPlotXs,
        consecDiffs]
  | cons p ps ih =>
    intro i h
    have h1 : i + 1 + ps.length ≤ chart.yAxis.length := by
      simp only [List.length_cons] at h
      omega
    have hi : i < chart.yAxis.length := by
      simp only [List.length_cons] at h
      omega
    cases hy : p.y with
    | none =>
      constructor
      · intro lx c
        simp only [translateParallelPoints, hy]
        rw [(ih (i + 1) h1).1 lx c]
        simp [specTranslatedPoints, specTranslatePoint, definedPlotXs, hy]
      · intro c
        simp only [translateParallelPoints, hy]
        rw [(ih (i + 1) h1).2 c]
        simp [specTranslatedPoints, specTranslatePoint, definedPlotXs, hy]
    | some yv =>
      obtain ⟨ax, hget⟩ : ∃ ax, chart.yAxis.get? i = some ax :=
        ⟨chart.yAxis.get ⟨i, hi⟩, List.get?_eq_get hi⟩
      have hgetE : chart.yAxis[i]? = some ax := getD_of_getQ hget
      constructor
      · intro lx c
        simp only [translateParallelPoints, hy, hget]
        rw [(ih (i + 1) h1).1]
        simp [specTranslatedPoints, specTranslatePoint, definedPlotXs, hy,
          hgetE, consecDiffs, List.foldl_cons]
      · intro c
        simp only [translateParallelPoints, hy, hget]
        rw [(ih (i + 1) h1).1]
        simp [specTranslatedPoints, specTranslatePoint, definedPlotXs, hy,
          hgetE, consecDiffs, List.foldl_cons]

theorem consecDiffs_short : ∀ xs : List ℚ, xs.length < 2 →
    consecDiffs xs = [] := by
  intro xs h
  cases xs with
  | nil => rfl
  | cons x t =>
    cases t with
    | nil => rfl
    | cons y r =>
      exfalso
      simp only [List.length_cons] at h
      omega

/-- C5: in a parallel-coordinates chart, the translate handler marks every
point with undefined `y` as a null point and leaves its pixel data alone,
gives every defined point `plotX`/`clientX` from its dimension's axis
geometry (angle in polar mode, offset-derived coordinate otherwise), `plotY`
from that axis's value-to-pixel translation and `isInside` from the chart's
plot-box containment test, and stores on the series the minimum absolute
difference between consecutive defined points' `plotX` (accumulated from the
sentinel `Number.MAX_VALUE`), which is exactly the sentinel when fewer than
two defined points exist. -/
theorem c5_afterTranslate_parallel (chart : TChart) (s : TSeries)
    (hpar : chart.hasParallelCoordinates = true)
    (hlen : s.points.length ≤ chart.yAxis.length) :
    afterTranslateHook chart s =
      some { s with
        points := specTranslatedPoints chart s.points 0,
        closestPointRangePx :=
          some (specClosestRange (definedPlotXs chart s.points 0)) }
    ∧ ((definedPlotXs chart s.points 0).length < 2 →
        specClosestRange (definedPlotXs chart s.points 0) = numberMaxValue) := by
  constructor
  · have hrun := (translateParallelPoints_spec chart s.points 0
      (by omega)).2 numberMaxValue
    simp [afterTranslateHook, hpar, hrun, specClosestRange]
  · intro h2
    simp [specClosestRange, consecDiffs_short _ h2]

theorem c5_afterTranslate_parallel_witness :
    (exC5Chart.hasParallelCoordinates = true ∧
      exC5Series.points.length ≤ exC5Chart.yAxis.length)
    ∧ afterTranslateHook exC5Chart exC5Series =
        some { exC5Series with
          points := specTranslatedPoints exC5Chart exC5Series.points 0,
          closestPointRangePx :=
            some (specClosestRange
              (definedPlotXs exC5Chart exC5Series.points 0)) } :=
  ⟨⟨rfl, by decide⟩,
   (c5_afterTranslate_parallel exC5Chart exC5Series rfl (by decide)).1⟩

/-- C1 (code evaluated at the failing input): for a point whose Y-axis is
simultaneously a datetime axis and carries categories, with no explicit
format template, `addFormattedValue` resolves the datetime branch — writing
the datetime-formatted value onto both the config and the point — even
though the category lookup at the raw value is defined and yields the
category name, which the claim (and the source's own doc comment, listing
category before datetime) says should win. -/
theorem c1_datetime_branch_precedes_categories :
    addFormattedValue (some exC1Chart) exC1Config =
      some
        { point :=
            { x := 0, y := some 0,
              formattedValue := some (FV.dateFmt (some ("%e. %b")) (some 0)) },
          formattedValue := some (FV.dateFmt (some ("%e. %b")) (some 0)) }
    ∧ exC1Axis.isDatetimeAxis = true
    ∧ exC1Axis.options.categories.isSome = true
    ∧ categoriesAt (exC1Axis.options.categories.getD []) (some 0) = some ("A")
    ∧ pick exC1Axis.options.tooltipValueFormat
        exC1Axis.options.labelsFormat = none
    ∧ FV.dateFmt (some ("%e. %b")) (some 0) ≠ FV.cat (some ("A")) := by
  decide

end ParallelCoordinates
